import Mathlib

/-! Shallow embedding of the geo-proximity ranking logic of the Siraha Bazaar
storefront (`client/src/components/NearbyStores.tsx`, duplicated verbatim in
`client/src/components/StoreMap.tsx`).

JS numbers are modelled as real numbers; `Math.sin` and friends become
`Real.sin` and friends, and `Math.atan2 y x` becomes `Complex.arg ⟨x, y⟩`,
which has the same `(-π, π]` convention and the same value `0` at the origin.
JS `NaN` has no counterpart in `ℝ`: the one place it can arise in this code
(the result of `parseFloat` on a non-empty string with no leading number) is
modelled with `Option` (`none` = `NaN`), and theorems about whole rankings
draw conclusions only where coordinates actually parse. -/

/-- JS `Math.round`: round to the nearest integer, ties toward `+∞`. -/
noncomputable def jsRound (x : ℝ) : ℤ := ⌊x + 1 / 2⌋

/-- JS `Math.atan2 y x` with the `(-π, π]` convention; `atan2 0 0 = 0`. -/
noncomputable def atan2 (y x : ℝ) : ℝ := Complex.arg ⟨x, y⟩

/-- JS array indexing `l[i]`: `none` models the `undefined` obtained for an
out-of-range (in particular negative) index. -/
def jsGetElem (l : List String) (i : ℤ) : Option String :=
  if 0 ≤ i then l[i.toNat]? else none

/-- JS `s || d` for strings: the empty string is the only falsy string. -/
def jsOr (s d : String) : String := if s = "" then d else s

/-- Leading decimal digits of a character list: accumulated value, number of
digits consumed, and the rest of the list. -/
def takeDigits : ℕ → ℕ → List Char → ℕ × ℕ × List Char
  | acc, n, [] => (acc, n, [])
  | acc, n, c :: cs =>
    if c.isDigit then takeDigits (10 * acc + (c.toNat - 48)) (n + 1) cs
    else (acc, n, c :: cs)

/-- JS `parseFloat`, on the grammar this code ever feeds it: an optional sign,
then decimal digits with at most one decimal point; trailing garbage (such as
a `km`/`m` suffix) is ignored.  `none` models the `NaN` result on a string
with no leading number. -/
def jsParseFloat (s : String) : Option ℚ :=
  let core : List Char → Option ℚ := fun cs =>
    let (ip, ni, rest) := takeDigits 0 0 cs
    match rest with
    | '.' :: cs2 =>
      let (fp, nf, _) := takeDigits 0 0 cs2
      if ni = 0 ∧ nf = 0 then none
      else some ((ip : ℚ) + (fp : ℚ) / 10 ^ nf)
    | _ => if ni = 0 then none else some ((ip : ℚ))
  match s.data with
  | '-' :: cs => (core cs).map (fun q => -q)
  | '+' :: cs => core cs
  | cs => core cs

/-- JS `.split(' ')[0]`: the longest space-free prefix of the string. -/
def headToken (s : String) : String := String.mk (s.data.takeWhile (fun c => c != ' '))

/-- The sort key the source uses: `parseFloat(x.distance.split(' ')[0])`.
Display strings always begin with a rendered number, so the `NaN` case is
dead code here; `getD 0` keeps the model total. -/
def sortKey (s : String) : ℚ := (jsParseFloat (headToken s)).getD 0

/-- Decimal rendering of `n` tenths with one decimal place (`42 ↦ "4.2"`),
matching the output format of `Number.prototype.toFixed(1)`. -/
def renderTenths (n : ℤ) : String :=
  if n < 0 then "-" ++ toString (-n / 10) ++ "." ++ toString (-n % 10)
  else toString (n / 10) ++ "." ++ toString (n % 10)

/-- JS `x.toFixed(1)`: nearest tenth, ties toward `+∞`. -/
noncomputable def jsToFixed1 (x : ℝ) : String := renderTenths ⌊10 * x + 1 / 2⌋

/-- JS `x.toFixed(0)`: nearest integer, ties toward `+∞`. -/
noncomputable def jsToFixed0 (x : ℝ) : String := toString ⌊x + 1 / 2⌋

/-- `formatDistance` from the source:
`distance >= 1 ? distance.toFixed(1)+"km" : (distance*1000).toFixed(0)+"m"`. -/
noncomputable def formatDistance (distance : ℝ) : String :=
  if 1 ≤ distance then jsToFixed1 distance ++ "km"
  else jsToFixed0 (distance * 1000) ++ "m"

/-- `calculateDistance` from the source: the Haversine formula on a sphere of
radius 6371 km. -/
noncomputable def calculateDistance (lat1 lon1 lat2 lon2 : ℝ) : ℝ :=
  let R : ℝ := 6371
  let dLat := (lat2 - lat1) * Real.pi / 180
  let dLon := (lon2 - lon1) * Real.pi / 180
  let a := Real.sin (dLat / 2) * Real.sin (dLat / 2) +
    Real.cos (lat1 * Real.pi / 180) * Real.cos (lat2 * Real.pi / 180) *
    Real.sin (dLon / 2) * Real.sin (dLon / 2)
  let c := 2 * atan2 (Real.sqrt a) (Real.sqrt (1 - a))
  R * c

/-- The bearing in degrees computed inside `calculateDirection`:
`Math.atan2(y, x) * 180 / Math.PI`, NOT normalized into `[0, 360)`. -/
noncomputable def bearingOf (lat1 lon1 lat2 lon2 : ℝ) : ℝ :=
  let dLon := (lon2 - lon1) * Real.pi / 180
  let y := Real.sin dLon * Real.cos (lat2 * Real.pi / 180)
  let x := Real.cos (lat1 * Real.pi / 180) * Real.sin (lat2 * Real.pi / 180) -
    Real.sin (lat1 * Real.pi / 180) * Real.cos (lat2 * Real.pi / 180) * Real.cos dLon
  atan2 y x * 180 / Real.pi

/-- The 8 compass names of the source, in order. -/
def directions : List String := ["N", "NE", "E", "SE", "S", "SW", "W", "NW"]

/-- `Math.round(bearing / 45) % 8`; the JS `%` operator truncates toward zero
(`Int.tmod`), so this is negative whenever the rounded quotient is. -/
noncomputable def directionIndex (lat1 lon1 lat2 lon2 : ℝ) : ℤ :=
  Int.tmod (jsRound (bearingOf lat1 lon1 lat2 lon2 / 45)) 8

/-- `calculateDirection` from the source; `none` models the `undefined`
obtained from `directions[index]` when the index is negative. -/
noncomputable def calculateDirection (lat1 lon1 lat2 lon2 : ℝ) : Option String :=
  jsGetElem directions (directionIndex lat1 lon1 lat2 lon2)

/-- A candidate store record, with the fields the ranking logic reads
(coordinates are stored as text, as in the source's `Store` interface; the
remaining fields — phone, logo, rating, … — are carried unchanged through the
pipeline and are irrelevant to every claim). -/
structure Store where
  id : ℤ
  name : String
  address : String
  latitude : String
  longitude : String
deriving DecidableEq

/-- The number `parseFloat(store.latitude || '0')` that the ranker receives:
`none` models `NaN` (non-empty text with no leading number). -/
def jsCoordVal (text : String) : Option ℚ := jsParseFloat (jsOr text "0")

/-- Rational reading of a coordinate, total: JS would propagate `NaN` where
this returns `0`, so ranking theorems only draw conclusions for coordinate
text that actually parses. -/
def jsNumOfCoordQ (text : String) : ℚ := (jsCoordVal text).getD 0

/-- Real-valued coordinate handed to the distance/bearing computations. -/
noncomputable def jsNumOfCoord (text : String) : ℝ := (jsNumOfCoordQ text : ℝ)

/-- One output entry of `getNearbyStores`: the store spread together with its
parsed `storeLocation` and the display `distance` string. -/
structure RankedStore where
  store : Store
  storeLocationLat : ℝ
  storeLocationLng : ℝ
  distance : String

/-- The body of the `stores.map` in `getNearbyStores`: parse the coordinates,
compute distance and direction from the user location, and build the display
string `` `${formatDistance(distance)} (${direction})` `` (an `undefined`
direction is interpolated as the text `undefined`, as JS templates do). -/
noncomputable def annotateStore (lat lng : ℝ) (store : Store) : RankedStore :=
  let slat := jsNumOfCoord store.latitude
  let slng := jsNumOfCoord store.longitude
  let distance := calculateDistance lat lng slat slng
  let direction := calculateDirection lat lng slat slng
  { store := store
    storeLocationLat := slat
    storeLocationLng := slng
    distance := formatDistance distance ++ " (" ++ direction.getD "undefined" ++ ")" }

/-- The comparator `(a, b) => aDist - bDist` of the source, as the
corresponding `≤` relation on the parsed string prefixes. -/
def rankLE (a b : RankedStore) : Prop := sortKey a.distance ≤ sortKey b.distance

instance : DecidableRel rankLE := fun a b =>
  inferInstanceAs (Decidable (sortKey a.distance ≤ sortKey b.distance))

/-- `getNearbyStores` from the source: `[]` when no user location is set,
otherwise annotate every store and sort by the comparator.  ECMAScript
`Array.prototype.sort` is specified to be stable, which `List.insertionSort`
models exactly. -/
noncomputable def getNearbyStores (userLocation : Option (ℝ × ℝ)) (stores : List Store) :
    List RankedStore :=
  match userLocation with
  | none => []
  | some loc => List.insertionSort rankLE (stores.map (annotateStore loc.1 loc.2))

/-! Basic facts about the `atan2` model. -/

/-- `atan2 y x` is non-negative whenever `y` is. -/
lemma atan2_nonneg {y : ℝ} (x : ℝ) (hy : 0 ≤ y) : 0 ≤ atan2 y x :=
  Complex.arg_nonneg_iff.mpr hy

/-- `atan2 0 1 = 0`. -/
lemma atan2_zero_one : atan2 0 1 = 0 := by
  have : (⟨1, 0⟩ : ℂ) = ((1 : ℝ) : ℂ) := by
    apply Complex.ext <;> simp
  rw [atan2, this, Complex.arg_ofReal_of_nonneg zero_le_one]

/-- `atan2` of a non-negative real along the positive x-axis is `0`. -/
lemma atan2_zero_of_nonneg {x : ℝ} (hx : 0 ≤ x) : atan2 0 x = 0 := by
  have : (⟨x, 0⟩ : ℂ) = ((x : ℝ) : ℂ) := by
    apply Complex.ext <;> simp
  rw [atan2, this, Complex.arg_ofReal_of_nonneg hx]

/-- `atan2` straight down the negative y-axis is `-(π/2)`. -/
lemma atan2_neg_y {y : ℝ} (hy : y < 0) : atan2 y 0 = -(Real.pi / 2) := by
  have h1 : (⟨0, y⟩ : ℂ) = ((-y : ℝ) : ℂ) * (-Complex.I) := by
    apply Complex.ext <;> simp
  rw [atan2, h1, Complex.arg_real_mul _ (by linarith), Complex.arg_neg_I]

/-- On a point of the unit circle in the right half plane, `atan2` is `arcsin`
of the vertical coordinate. -/
lemma atan2_sqrt_eq_arcsin {a : ℝ} (h0 : 0 ≤ a) (h1 : a ≤ 1) :
    atan2 (Real.sqrt a) (Real.sqrt (1 - a)) = Real.arcsin (Real.sqrt a) := by
  rw [atan2, Complex.arg]
  have hre : (0 : ℝ) ≤ (⟨Real.sqrt (1 - a), Real.sqrt a⟩ : ℂ).re := Real.sqrt_nonneg _
  rw [if_pos hre]
  have habs : Complex.abs (⟨Real.sqrt (1 - a), Real.sqrt a⟩ : ℂ) = 1 := by
    rw [Complex.abs_apply, Complex.normSq_mk, Real.mul_self_sqrt (by linarith),
      Real.mul_self_sqrt h0]
    norm_num
  simp [habs]

/-! Claims C10, C5, C6, C7. -/

/-- C10: with no user location (`userLocation` is `null`), `getNearbyStores`
returns the empty list for every candidate store list. -/
theorem claim10_no_location_empty : ∀ stores : List Store, getNearbyStores none stores = [] :=
  fun _ => rfl

/-- C5: `calculateDistance` (computeDistanceKm) is symmetric in its two
GeoPoint arguments. -/
theorem claim5_distance_symm :
    ∀ lat1 lon1 lat2 lon2 : ℝ,
      calculateDistance lat1 lon1 lat2 lon2 = calculateDistance lat2 lon2 lat1 lon1 := by
  intro l1 o1 l2 o2
  simp only [calculateDistance]
  have h1 : (l1 - l2) * Real.pi / 180 / 2 = -((l2 - l1) * Real.pi / 180 / 2) := by ring
  have h2 : (o1 - o2) * Real.pi / 180 / 2 = -((o2 - o1) * Real.pi / 180 / 2) := by ring
  have ha :
      Real.sin ((l1 - l2) * Real.pi / 180 / 2) * Real.sin ((l1 - l2) * Real.pi / 180 / 2) +
        Real.cos (l2 * Real.pi / 180) * Real.cos (l1 * Real.pi / 180) *
        Real.sin ((o1 - o2) * Real.pi / 180 / 2) * Real.sin ((o1 - o2) * Real.pi / 180 / 2) =
      Real.sin ((l2 - l1) * Real.pi / 180 / 2) * Real.sin ((l2 - l1) * Real.pi / 180 / 2) +
        Real.cos (l1 * Real.pi / 180) * Real.cos (l2 * Real.pi / 180) *
        Real.sin ((o2 - o1) * Real.pi / 180 / 2) * Real.sin ((o2 - o1) * Real.pi / 180 / 2) := by
    simp only [h1, h2, Real.sin_neg]
    ring
  rw [ha]

/-- C6: `calculateDistance` is non-negative on all inputs, and the distance
from any GeoPoint to itself is `0`. -/
theorem claim6_distance_nonneg_and_self_zero :
    (∀ lat1 lon1 lat2 lon2 : ℝ, 0 ≤ calculateDistance lat1 lon1 lat2 lon2) ∧
    (∀ lat lon : ℝ, calculateDistance lat lon lat lon = 0) := by
  constructor
  · intro l1 o1 l2 o2
    simp only [calculateDistance]
    have h := atan2_nonneg (y := Real.sqrt (Real.sin ((l2 - l1) * Real.pi / 180 / 2) *
        Real.sin ((l2 - l1) * Real.pi / 180 / 2) +
        Real.cos (l1 * Real.pi / 180) * Real.cos (l2 * Real.pi / 180) *
        Real.sin ((o2 - o1) * Real.pi / 180 / 2) * Real.sin ((o2 - o1) * Real.pi / 180 / 2)))
      (Real.sqrt (1 - (Real.sin ((l2 - l1) * Real.pi / 180 / 2) *
        Real.sin ((l2 - l1) * Real.pi / 180 / 2) +
        Real.cos (l1 * Real.pi / 180) * Real.cos (l2 * Real.pi / 180) *
        Real.sin ((o2 - o1) * Real.pi / 180 / 2) * Real.sin ((o2 - o1) * Real.pi / 180 / 2))))
      (Real.sqrt_nonneg _)
    nlinarith [h]
  · intro lat lon
    simp only [calculateDistance, sub_self, zero_mul, zero_div, Real.sin_zero, mul_zero,
      zero_add, add_zero, Real.sqrt_zero, sub_zero, Real.sqrt_one]
    rw [atan2_zero_one]
    ring

/-- C7: `formatDistance` uses one decimal plus "km" for `km >= 1`, rounded
meters plus "m" otherwise; concretely `0.35 ↦ "350m"`, `4.2 ↦ "4.2km"`, and
the boundary value `1.0 ↦ "1.0km"` takes the km branch. -/
theorem claim7_formatDistance_spec :
    formatDistance 0.35 = "350m" ∧ formatDistance 4.2 = "4.2km" ∧
    formatDistance 1 = "1.0km" ∧
    (∀ km : ℝ, 1 ≤ km → formatDistance km = jsToFixed1 km ++ "km") ∧
    (∀ km : ℝ, km < 1 → formatDistance km = jsToFixed0 (km * 1000) ++ "m") := by
  refine ⟨?_, ?_, ?_, ?_, ?_⟩
  · rw [formatDistance, if_neg (by norm_num), jsToFixed0,
      show ⌊(0.35 : ℝ) * 1000 + 1 / 2⌋ = 350 by norm_num [Int.floor_eq_iff]]
    rfl
  · rw [formatDistance, if_pos (by norm_num), jsToFixed1,
      show ⌊10 * (4.2 : ℝ) + 1 / 2⌋ = 42 by norm_num [Int.floor_eq_iff]]
    rfl
  · rw [formatDistance, if_pos le_rfl, jsToFixed1,
      show ⌊10 * (1 : ℝ) + 1 / 2⌋ = 10 by norm_num [Int.floor_eq_iff]]
    rfl
  · intro km h
    rw [formatDistance, if_pos h]
  · intro km h
    rw [formatDistance, if_neg (not_le.mpr h)]

/-- Witness for C7: the two conditional branches instantiated at `4.2`
and `0.35`. -/
theorem claim7_formatDistance_spec_witness :
    ((1 : ℝ) ≤ 4.2 ∧ formatDistance 4.2 = jsToFixed1 4.2 ++ "km") ∧
    ((0.35 : ℝ) < 1 ∧ formatDistance 0.35 = jsToFixed0 (0.35 * 1000) ++ "m") :=
  ⟨⟨by norm_num, claim7_formatDistance_spec.2.2.2.1 4.2 (by norm_num)⟩,
   ⟨by norm_num, claim7_formatDistance_spec.2.2.2.2 0.35 (by norm_num)⟩⟩

/-! Bearing evaluations and index range. -/

/-- From the origin, any point due west on the equator has bearing exactly
`-90` degrees (the source never normalizes it to `270`). -/
lemma bearingOf_equator_west {lon2 : ℝ} (h1 : -180 < lon2) (h2 : lon2 < 0) :
    bearingOf 0 0 0 lon2 = -90 := by
  have hpi := Real.pi_pos
  simp only [bearingOf, zero_mul, zero_div, Real.sin_zero, Real.cos_zero, mul_one, one_mul,
    mul_zero, zero_sub, sub_zero, neg_zero]
  have hlo : -Real.pi < lon2 * Real.pi / 180 := by nlinarith
  have hhi : lon2 * Real.pi / 180 < 0 := by nlinarith
  have hsin : Real.sin (lon2 * Real.pi / 180) < 0 :=
    Real.sin_neg_of_neg_of_neg_pi_lt hhi hlo
  rw [atan2_neg_y hsin]
  field_simp
  ring

/-- `Math.round(-90 / 45) % 8 = -2` in JS arithmetic. -/
lemma jsRound_neg_two : jsRound ((-90 : ℝ) / 45) = -2 := by
  rw [jsRound]
  norm_num [Int.floor_eq_iff]

/-- Truncating remainder is the identity on `[-4, 4]` for modulus 8. -/
lemma tmod_eight_small {n : ℤ} (h1 : -4 ≤ n) (h2 : n ≤ 4) : Int.tmod n 8 = n := by
  interval_cases n <;> decide

/-- C2 (code bug): for the due-west pair `a = (0,0)`, `b = (0,-1)` the bearing
is `-90`; the source computes `Math.round(-90/45) % 8 = -2` and the array
access `directions[-2]` yields `undefined` (`none`), not the claimed `"W"`. -/
theorem claim2_direction_west_undefined : calculateDirection 0 0 0 (-1) = none := by
  rw [calculateDirection, directionIndex, bearingOf_equator_west (by norm_num) (by norm_num),
    jsRound_neg_two]
  decide

/-- C4 counterexample: for origin `(0,0)` and target `(0,-90)` (due west) the
index computed inside `calculateDirection` is `-2`, which is NOT within the
bounds of the 8-element `directions` array, and the array access produces
`undefined` (`none`). -/
theorem claim4_index_out_of_bounds :
    directionIndex 0 0 0 (-90) = -2 ∧ calculateDirection 0 0 0 (-90) = none := by
  have hidx : directionIndex 0 0 0 (-90) = -2 := by
    rw [directionIndex, bearingOf_equator_west (by norm_num) (by norm_num), jsRound_neg_two]
    decide
  exact ⟨hidx, by rw [calculateDirection, hidx]; decide⟩

/-- `atan2` always lies in `(-π, π]`. -/
lemma atan2_range (y x : ℝ) : -Real.pi < atan2 y x ∧ atan2 y x ≤ Real.pi :=
  ⟨Complex.neg_pi_lt_arg _, Complex.arg_le_pi _⟩

/-- A bearing `atan2 y x * 180 / π` always lies in `(-180, 180]`. -/
lemma scaled_atan2_range (y x : ℝ) :
    -180 < atan2 y x * 180 / Real.pi ∧ atan2 y x * 180 / Real.pi ≤ 180 := by
  obtain ⟨h1, h2⟩ := atan2_range y x
  have hpi := Real.pi_pos
  constructor
  · rw [lt_div_iff hpi]
    nlinarith
  · rw [div_le_iff hpi]
    nlinarith

/-- The un-normalized bearing of the source lies in `(-180, 180]`. -/
lemma bearingOf_range (lat1 lon1 lat2 lon2 : ℝ) :
    -180 < bearingOf lat1 lon1 lat2 lon2 ∧ bearingOf lat1 lon1 lat2 lon2 ≤ 180 := by
  simp only [bearingOf]
  exact scaled_atan2_range _ _

/-- For a bearing in `(-180, 180]`, the rounded quotient by 45 lies in `[-4, 4]`. -/
lemma jsRound_bearing_range {b : ℝ} (h1 : -180 < b) (h2 : b ≤ 180) :
    -4 ≤ jsRound (b / 45) ∧ jsRound (b / 45) ≤ 4 := by
  rw [jsRound]
  constructor
  · apply Int.le_floor.mpr
    push_cast
    linarith
  · have h5 : ⌊b / 45 + 1 / 2⌋ < 5 := by
      apply Int.floor_lt.mpr
      push_cast
      linarith
    omega

/-- C4 (amended): the pipeline is total — `getNearbyStores` always returns one
result entry per candidate without any failing operation — and the index
computed inside `calculateDirection` always lies in `[-4, 4]`: it can be
negative (out of the array bounds), in which case the JS array access yields
`undefined` rather than throwing. -/
theorem claim4_total_and_index_range :
    (∀ (loc : ℝ × ℝ) (stores : List Store),
      (getNearbyStores (some loc) stores).length = stores.length) ∧
    (∀ lat1 lon1 lat2 lon2 : ℝ,
      -4 ≤ directionIndex lat1 lon1 lat2 lon2 ∧ directionIndex lat1 lon1 lat2 lon2 ≤ 4) := by
  constructor
  · intro loc stores
    simp [getNearbyStores, List.length_insertionSort, List.length_map]
  · intro l1 o1 l2 o2
    obtain ⟨h1, h2⟩ := bearingOf_range l1 o1 l2 o2
    obtain ⟨h3, h4⟩ := jsRound_bearing_range h1 h2
    rw [directionIndex, tmod_eight_small h3 h4]
    exact ⟨h3, h4⟩

/-- C3 counterexample: a non-empty but unparseable coordinate text is NOT
coerced to `0.0` — `"abc" || '0'` is `"abc"` (non-empty strings are truthy)
and `parseFloat("abc")` is `NaN` (modelled `none`), so the ranker receives
`NaN`, not `0.0`.  Only the empty/missing text is defaulted. -/
theorem claim3_unparseable_is_nan :
    jsCoordVal "abc" = none ∧ jsCoordVal "abc" ≠ some 0 ∧ jsCoordVal "" = some 0 := by
  refine ⟨by decide, by decide, by decide⟩

/-- C3 (amended): for a store whose stored latitude and longitude text is
missing/empty, the coordinate the ranker receives is `0.0` and the ranking
still produces a well-formed result entry for that store. -/
theorem claim3_empty_coord_zero :
    ∀ (loc : ℝ × ℝ) (s : Store), s.latitude = "" → s.longitude = "" →
      jsNumOfCoord s.latitude = 0 ∧ jsNumOfCoord s.longitude = 0 ∧
      (annotateStore loc.1 loc.2 s).storeLocationLat = 0 ∧
      (annotateStore loc.1 loc.2 s).storeLocationLng = 0 ∧
      (getNearbyStores (some loc) [s]).length = 1 := by
  intro loc s hlat hlng
  have hq : jsNumOfCoordQ "" = 0 := by decide
  have h0 : jsNumOfCoord "" = 0 := by
    rw [jsNumOfCoord, hq]
    norm_num
  refine ⟨by rw [hlat]; exact h0, by rw [hlng]; exact h0, ?_, ?_, ?_⟩
  · simp only [annotateStore, hlat]
    exact h0
  · simp only [annotateStore, hlng]
    exact h0
  · simp [getNearbyStores, List.length_insertionSort, List.length_map]

/-- Witness for C3 (amended), at a concrete empty-coordinate store. -/
theorem claim3_empty_coord_zero_witness :
    (Store.mk 7 "S" "A" "" "").latitude = "" ∧ (Store.mk 7 "S" "A" "" "").longitude = "" ∧
    (jsNumOfCoord (Store.mk 7 "S" "A" "" "").latitude = 0 ∧
      jsNumOfCoord (Store.mk 7 "S" "A" "" "").longitude = 0 ∧
      (annotateStore ((27.7 : ℝ), (85.3 : ℝ)).1 ((27.7 : ℝ), (85.3 : ℝ)).2
        (Store.mk 7 "S" "A" "" "")).storeLocationLat = 0 ∧
      (annotateStore ((27.7 : ℝ), (85.3 : ℝ)).1 ((27.7 : ℝ), (85.3 : ℝ)).2
        (Store.mk 7 "S" "A" "" "")).storeLocationLng = 0 ∧
      (getNearbyStores (some ((27.7 : ℝ), (85.3 : ℝ))) [Store.mk 7 "S" "A" "" ""]).length = 1) :=
  ⟨rfl, rfl, claim3_empty_coord_zero ((27.7 : ℝ), (85.3 : ℝ)) (Store.mk 7 "S" "A" "" "") rfl rfl⟩

/-- `takeWhile` up to a space does not look past the space. -/
lemma takeWhile_append_space (p : Char → Bool) (hp : p ' ' = false) :
    ∀ (l r1 r2 : List Char),
      (l ++ ' ' :: r1).takeWhile p = (l ++ ' ' :: r2).takeWhile p := by
  intro l r1 r2
  induction l with
  | nil => simp [List.takeWhile_cons, hp]
  | cons c l ih =>
    simp only [List.cons_append, List.takeWhile_cons]
    cases p c <;> simp [ih]

/-- The leading token of a display string `s + " (" + t + ")"` does not depend
on the direction part `t`. -/
lemma headToken_display (s t1 t2 : String) :
    headToken (s ++ " (" ++ t1 ++ ")") = headToken (s ++ " (" ++ t2 ++ ")") := by
  have hdata : ∀ t : String,
      (s ++ " (" ++ t ++ ")").data = s.data ++ ' ' :: ('(' :: (t.data ++ [')'])) := by
    intro t
    simp [String.data_append]
  rw [headToken, headToken, hdata t1, hdata t2,
    takeWhile_append_space _ rfl s.data ('(' :: (t1.data ++ [')'])) ('(' :: (t2.data ++ [')']))]

/-- The sort key of a display string only reads the formatted distance part. -/
lemma sortKey_display_eq (s t1 t2 : String) :
    sortKey (s ++ " (" ++ t1 ++ ")") = sortKey (s ++ " (" ++ t2 ++ ")") := by
  rw [sortKey, sortKey, headToken_display s t1 t2]

/-- C9: the ranking sorts stably — two candidates at exactly equal computed
distance keep their relative input order in the output of `getNearbyStores`. -/
theorem claim9_stable_sort :
    ∀ (loc : ℝ × ℝ) (stores : List Store) (x y : Store),
      [x, y].Sublist stores →
      calculateDistance loc.1 loc.2 (jsNumOfCoord x.latitude) (jsNumOfCoord x.longitude) =
        calculateDistance loc.1 loc.2 (jsNumOfCoord y.latitude) (jsNumOfCoord y.longitude) →
      [annotateStore loc.1 loc.2 x, annotateStore loc.1 loc.2 y].Sublist
        (getNearbyStores (some loc) stores) := by
  intro loc stores x y hsub hdist
  show [annotateStore loc.1 loc.2 x, annotateStore loc.1 loc.2 y].Sublist
    (List.insertionSort rankLE (stores.map (annotateStore loc.1 loc.2)))
  apply List.pair_sublist_insertionSort
  · show sortKey (annotateStore loc.1 loc.2 x).distance ≤
      sortKey (annotateStore loc.1 loc.2 y).distance
    have hdx : (annotateStore loc.1 loc.2 x).distance =
        formatDistance (calculateDistance loc.1 loc.2 (jsNumOfCoord x.latitude)
            (jsNumOfCoord x.longitude)) ++ " (" ++
          (calculateDirection loc.1 loc.2 (jsNumOfCoord x.latitude)
            (jsNumOfCoord x.longitude)).getD "undefined" ++ ")" := rfl
    have hdy : (annotateStore loc.1 loc.2 y).distance =
        formatDistance (calculateDistance loc.1 loc.2 (jsNumOfCoord y.latitude)
            (jsNumOfCoord y.longitude)) ++ " (" ++
          (calculateDirection loc.1 loc.2 (jsNumOfCoord y.latitude)
            (jsNumOfCoord y.longitude)).getD "undefined" ++ ")" := rfl
    rw [hdx, hdy, hdist]
    exact le_of_eq (sortKey_display_eq _ _ _)
  · have h := List.Sublist.map (annotateStore loc.1 loc.2) hsub
    simpa using h

/-- Witness for C9: two distinct stores at the same stored coordinates keep
their input order in the ranked output. -/
theorem claim9_stable_sort_witness :
    ([Store.mk 1 "X" "" "5" "5", Store.mk 2 "Y" "" "5" "5"].Sublist
        [Store.mk 1 "X" "" "5" "5", Store.mk 2 "Y" "" "5" "5"] ∧
      calculateDistance ((0 : ℝ), (0 : ℝ)).1 ((0 : ℝ), (0 : ℝ)).2
          (jsNumOfCoord (Store.mk 1 "X" "" "5" "5").latitude)
          (jsNumOfCoord (Store.mk 1 "X" "" "5" "5").longitude) =
        calculateDistance ((0 : ℝ), (0 : ℝ)).1 ((0 : ℝ), (0 : ℝ)).2
          (jsNumOfCoord (Store.mk 2 "Y" "" "5" "5").latitude)
          (jsNumOfCoord (Store.mk 2 "Y" "" "5" "5").longitude)) ∧
    [annotateStore ((0 : ℝ), (0 : ℝ)).1 ((0 : ℝ), (0 : ℝ)).2 (Store.mk 1 "X" "" "5" "5"),
      annotateStore ((0 : ℝ), (0 : ℝ)).1 ((0 : ℝ), (0 : ℝ)).2 (Store.mk 2 "Y" "" "5" "5")].Sublist
      (getNearbyStores (some ((0 : ℝ), (0 : ℝ)))
        [Store.mk 1 "X" "" "5" "5", Store.mk 2 "Y" "" "5" "5"]) :=
  ⟨⟨List.Sublist.refl _, rfl⟩,
    claim9_stable_sort ((0 : ℝ), (0 : ℝ)) [Store.mk 1 "X" "" "5" "5", Store.mk 2 "Y" "" "5" "5"]
      (Store.mk 1 "X" "" "5" "5") (Store.mk 2 "Y" "" "5" "5") (List.Sublist.refl _) rfl⟩

/-- `atan2` inverts the polar parametrization on `(-π, π]`. -/
lemma atan2_sin_cos {t : ℝ} (h1 : -Real.pi < t) (h2 : t ≤ Real.pi) :
    atan2 (Real.sin t) (Real.cos t) = t := by
  have h : (⟨Real.cos t, Real.sin t⟩ : ℂ) = Complex.cos t + Complex.sin t * Complex.I := by
    apply Complex.ext <;> simp [Complex.cos_ofReal_re, Complex.sin_ofReal_re]
  rw [atan2, h]
  exact Complex.arg_cos_add_sin_mul_I ⟨h1, h2⟩

/-- Haversine distance from the origin straight north along the meridian:
exactly the arc length `6371 * (d * π / 180)`. -/
lemma calculateDistance_meridian {d : ℝ} (h0 : 0 ≤ d) (h90 : d ≤ 90) :
    calculateDistance 0 0 d 0 = 6371 * (d * Real.pi / 180) := by
  have hpi := Real.pi_pos
  simp only [calculateDistance, sub_zero, sub_self, zero_mul, zero_div, Real.sin_zero,
    Real.cos_zero, mul_zero, add_zero, one_mul]
  have ht0 : 0 ≤ d * Real.pi / 180 / 2 := by positivity
  have htq : d * Real.pi / 180 / 2 ≤ Real.pi / 4 := by nlinarith
  have hs : 0 ≤ Real.sin (d * Real.pi / 180 / 2) :=
    Real.sin_nonneg_of_nonneg_of_le_pi ht0 (by linarith)
  have hc : 0 ≤ Real.cos (d * Real.pi / 180 / 2) :=
    Real.cos_nonneg_of_mem_Icc ⟨by linarith, by linarith⟩
  rw [Real.sqrt_mul_self hs]
  have hone : 1 - Real.sin (d * Real.pi / 180 / 2) * Real.sin (d * Real.pi / 180 / 2) =
      Real.cos (d * Real.pi / 180 / 2) * Real.cos (d * Real.pi / 180 / 2) := by
    nlinarith [Real.sin_sq_add_cos_sq (d * Real.pi / 180 / 2)]
  rw [hone, Real.sqrt_mul_self hc,
    atan2_sin_cos (by linarith) (by linarith)]
  ring

/-- Direction from the origin straight north along the meridian is `"N"`. -/
lemma calculateDirection_meridian {d : ℝ} (h0 : 0 ≤ d) (h90 : d ≤ 90) :
    calculateDirection 0 0 d 0 = some "N" := by
  have hpi := Real.pi_pos
  have hb : bearingOf 0 0 d 0 = 0 := by
    have hsin : 0 ≤ Real.sin (d * Real.pi / 180) :=
      Real.sin_nonneg_of_nonneg_of_le_pi (by positivity) (by nlinarith)
    simp only [bearingOf, sub_zero, sub_self, zero_mul, zero_div, Real.sin_zero,
      Real.cos_zero, mul_zero, zero_add, one_mul, mul_one]
    rw [atan2_zero_of_nonneg hsin]
    simp
  rw [calculateDirection, directionIndex, hb]
  have hz : jsRound ((0 : ℝ) / 45) = 0 := by
    rw [jsRound]
    norm_num [Int.floor_eq_iff]
  rw [hz]
  decide

/-- Formatted display of the 0.003-degree meridian arc: about 333.6 m, which
`toFixed(0)` rounds to `"334"`. -/
lemma format_arc_003 : formatDistance (6371 * ((0.003 : ℝ) * Real.pi / 180)) = "334m" := by
  have hpi1 := Real.pi_gt_d6
  have hpi2 := Real.pi_lt_d6
  have hlt : 6371 * ((0.003 : ℝ) * Real.pi / 180) < 1 := by nlinarith
  rw [formatDistance, if_neg (not_le.mpr hlt), jsToFixed0]
  have hfloor : ⌊6371 * ((0.003 : ℝ) * Real.pi / 180) * 1000 + 1 / 2⌋ = 334 := by
    apply Int.floor_eq_iff.mpr
    constructor <;> push_cast <;> nlinarith
  rw [hfloor]
  rfl

/-- Formatted display of the 0.04-degree meridian arc: about 4.448 km, which
`toFixed(1)` rounds to `"4.4"`. -/
lemma format_arc_04 : formatDistance (6371 * ((0.04 : ℝ) * Real.pi / 180)) = "4.4km" := by
  have hpi1 := Real.pi_gt_d6
  have hpi2 := Real.pi_lt_d6
  have hge : (1 : ℝ) ≤ 6371 * ((0.04 : ℝ) * Real.pi / 180) := by nlinarith
  rw [formatDistance, if_pos hge, jsToFixed1]
  have hfloor : ⌊10 * (6371 * ((0.04 : ℝ) * Real.pi / 180)) + 1 / 2⌋ = 44 := by
    apply Int.floor_eq_iff.mpr
    constructor <;> push_cast <;> nlinarith
  rw [hfloor]
  rfl

/-- The parsed coordinate `"0.003"` is the real number `0.003`. -/
lemma coord_003 : jsNumOfCoord "0.003" = (0.003 : ℝ) := by
  have h : jsNumOfCoordQ "0.003" = (0 : ℚ) + 3 / 10 ^ 3 := rfl
  rw [jsNumOfCoord, h]
  norm_num

/-- The parsed coordinate `"0.04"` is the real number `0.04`. -/
lemma coord_04 : jsNumOfCoord "0.04" = (0.04 : ℝ) := by
  have h : jsNumOfCoordQ "0.04" = (0 : ℚ) + 4 / 10 ^ 2 := rfl
  rw [jsNumOfCoord, h]
  norm_num

/-- The parsed coordinate `"0"` is the real number `0`. -/
lemma coord_0 : jsNumOfCoord "0" = (0 : ℝ) := by
  have h : jsNumOfCoordQ "0" = 0 := by decide
  rw [jsNumOfCoord, h]
  norm_num

/-- Display string of the near store (0.003 degrees due north of the origin). -/
lemma display_near :
    (annotateStore 0 0 (Store.mk 1 "A" "" "0.003" "0")).distance = "334m (N)" := by
  show formatDistance (calculateDistance 0 0 (jsNumOfCoord "0.003") (jsNumOfCoord "0")) ++
      " (" ++ (calculateDirection 0 0 (jsNumOfCoord "0.003") (jsNumOfCoord "0")).getD
        "undefined" ++ ")" = "334m (N)"
  rw [coord_003, coord_0, calculateDistance_meridian (by norm_num) (by norm_num),
    calculateDirection_meridian (by norm_num) (by norm_num), format_arc_003]
  rfl

/-- Display string of the far store (0.04 degrees due north of the origin). -/
lemma display_far :
    (annotateStore 0 0 (Store.mk 2 "B" "" "0.04" "0")).distance = "4.4km (N)" := by
  show formatDistance (calculateDistance 0 0 (jsNumOfCoord "0.04") (jsNumOfCoord "0")) ++
      " (" ++ (calculateDirection 0 0 (jsNumOfCoord "0.04") (jsNumOfCoord "0")).getD
        "undefined" ++ ")" = "4.4km (N)"
  rw [coord_04, coord_0, calculateDistance_meridian (by norm_num) (by norm_num),
    calculateDirection_meridian (by norm_num) (by norm_num), format_arc_04]
  rfl

/-- C1 (code bug): the ranking sorts by `parseFloat` of the *formatted* string
(which mixes km and m units), not by the numeric distance.  From origin
`(0,0)`, the store at `0.003°` north is ~0.334 km away (display `"334m (N)"`,
sort key 334) and the store at `0.04°` north is ~4.45 km away (display
`"4.4km (N)"`, sort key 4.4), so the ranking puts the *farther* store first
even though its numeric distance is larger. -/
theorem claim1_sort_by_parsed_prefix_misorders :
    getNearbyStores (some ((0 : ℝ), (0 : ℝ)))
        [Store.mk 1 "A" "" "0.003" "0", Store.mk 2 "B" "" "0.04" "0"] =
      [annotateStore 0 0 (Store.mk 2 "B" "" "0.04" "0"),
        annotateStore 0 0 (Store.mk 1 "A" "" "0.003" "0")] ∧
    calculateDistance 0 0 0.003 0 < calculateDistance 0 0 0.04 0 ∧
    (annotateStore 0 0 (Store.mk 1 "A" "" "0.003" "0")).distance = "334m (N)" ∧
    (annotateStore 0 0 (Store.mk 2 "B" "" "0.04" "0")).distance = "4.4km (N)" := by
  have k1 : sortKey "334m (N)" = ((334 : ℕ) : ℚ) := rfl
  have k2 : sortKey "4.4km (N)" = (4 : ℚ) + 4 / 10 ^ 1 := rfl
  have hnot : ¬ rankLE (annotateStore 0 0 (Store.mk 1 "A" "" "0.003" "0"))
      (annotateStore 0 0 (Store.mk 2 "B" "" "0.04" "0")) := by
    rw [rankLE, display_near, display_far, k1, k2]
    norm_num
  refine ⟨?_, ?_, display_near, display_far⟩
  · show List.insertionSort rankLE
        [annotateStore 0 0 (Store.mk 1 "A" "" "0.003" "0"),
          annotateStore 0 0 (Store.mk 2 "B" "" "0.04" "0")] =
      [annotateStore 0 0 (Store.mk 2 "B" "" "0.04" "0"),
        annotateStore 0 0 (Store.mk 1 "A" "" "0.003" "0")]
    simp [List.insertionSort, List.orderedInsert, hnot]
  · rw [calculateDistance_meridian (by norm_num) (by norm_num),
      calculateDistance_meridian (by norm_num) (by norm_num)]
    nlinarith [Real.pi_pos]

/-! Taylor-style bounds used to evaluate the Kathmandu-Biratnagar distance. -/

/-- `sin x ≤ x` for non-negative `x`. -/
lemma sin_le_self {x : ℝ} (h0 : 0 ≤ x) : Real.sin x ≤ x := by
  rcases eq_or_lt_of_le h0 with h | h
  · rw [← h]
    simp
  · exact (Real.sin_lt h).le

/-- Lower Taylor bound for `sin` transported along monotonicity. -/
lemma sin_lower_taylor {lo x : ℝ} (h1 : lo ≤ x) (h0 : 0 < lo) (hlo1 : lo ≤ 1)
    (hx : x ≤ Real.pi / 2) : lo - lo ^ 3 / 4 ≤ Real.sin x := by
  have h2 : Real.sin lo ≤ Real.sin x :=
    Real.sin_le_sin_of_le_of_le_pi_div_two (by linarith [Real.pi_pos]) hx h1
  have h3 := Real.sin_gt_sub_cube h0 hlo1
  linarith

/-- Upper quadratic bound for `cos` at a rational point below the argument. -/
lemma cos_upper_taylor {x q : ℝ} (hq : q ≤ x) (hq0 : 0 ≤ q) (hq1 : q ≤ 1)
    (hx : x ≤ Real.pi) : Real.cos x ≤ 1 - q ^ 2 / 2 + q ^ 4 * (5 / 96) := by
  have h1 : Real.cos x ≤ Real.cos q := Real.cos_le_cos_of_nonneg_of_le_pi hq0 hx hq
  have h2 := abs_le.mp (Real.cos_bound (by rwa [abs_of_nonneg hq0]))
  rw [abs_of_nonneg hq0] at h2
  linarith [h2.2]

/-- Lower quadratic bound for `cos` at a rational point above the argument. -/
lemma cos_lower_taylor {x q : ℝ} (hx : x ≤ q) (h0 : 0 ≤ x) (hq1 : q ≤ 1)
    (hqpi : q ≤ Real.pi) : 1 - q ^ 2 / 2 - q ^ 4 * (5 / 96) ≤ Real.cos x := by
  have hq0 : 0 ≤ q := le_trans h0 hx
  have h1 : Real.cos q ≤ Real.cos x := Real.cos_le_cos_of_nonneg_of_le_pi h0 hqpi hx
  have h2 := abs_le.mp (Real.cos_bound (by rwa [abs_of_nonneg hq0]))
  rw [abs_of_nonneg hq0] at h2
  linarith [h2.1]

/-- `c ≤ arcsin c` on `(0, 1]`. -/
lemma le_arcsin_self {c : ℝ} (h0 : 0 < c) (h1 : c ≤ 1) : c ≤ Real.arcsin c := by
  have ht := Real.arcsin_pos.mpr h0
  have hs := Real.sin_arcsin (by linarith) h1
  have hlt := Real.sin_lt ht
  rw [hs] at hlt
  exact hlt.le

/-- `arcsin c ≤ u` as soon as `sin u` dominates `c`. -/
lemma arcsin_le_of_sin_ge {c u : ℝ} (hcu : c ≤ Real.sin u)
    (hu1 : -(Real.pi / 2) ≤ u) (hu2 : u ≤ Real.pi / 2) : Real.arcsin c ≤ u := by
  have h := Real.monotone_arcsin hcu
  rwa [Real.arcsin_sin hu1 hu2] at h

set_option maxHeartbeats 2000000 in
/-- The source's Haversine distance from Kathmandu (27.7058, 85.3292) to
Biratnagar (26.4672, 87.2744) lies between 235 and 237 km. -/
lemma distance_ktm_brt_bounds :
    235 ≤ calculateDistance 27.7058 85.3292 26.4672 87.2744 ∧
    calculateDistance 27.7058 85.3292 26.4672 87.2744 ≤ 237 := by
  have hp1 := Real.pi_gt_d6
  have hp2 := Real.pi_lt_d6
  have hpip := Real.pi_pos
  simp only [calculateDistance]
  rw [show (26.4672 - 27.7058) * Real.pi / 180 / 2 =
      -((27.7058 - 26.4672) * Real.pi / 180 / 2) from by ring, Real.sin_neg, neg_mul_neg]
  set sm := Real.sin ((27.7058 - 26.4672) * Real.pi / 180 / 2) with hsm_def
  set sn := Real.sin ((87.2744 - 85.3292) * Real.pi / 180 / 2) with hsn_def
  set c1 := Real.cos (27.7058 * Real.pi / 180) with hc1_def
  set c2 := Real.cos (26.4672 * Real.pi / 180) with hc2_def
  -- bounds on the latitude-difference half angle and its sine
  have hm1 : (0.0108088 : ℝ) ≤ (27.7058 - 26.4672) * Real.pi / 180 / 2 := by linarith
  have hm2 : (27.7058 - 26.4672) * Real.pi / 180 / 2 ≤ 0.0108089 := by linarith
  have hsm_lo : (0.0108084 : ℝ) ≤ sm := by
    have h := sin_lower_taylor hm1 (by norm_num) (by norm_num) (by linarith)
    rw [← hsm_def] at h
    linarith [h]
  have hsm_hi : sm ≤ (0.0108089 : ℝ) := by
    have h := sin_le_self (x := (27.7058 - 26.4672) * Real.pi / 180 / 2) (by linarith)
    rw [← hsm_def] at h
    linarith
  have ht1lo : (0.00011682 : ℝ) ≤ sm * sm := by
    have := mul_self_le_mul_self (by norm_num : (0 : ℝ) ≤ 0.0108084) hsm_lo
    linarith [this]
  have ht1hi : sm * sm ≤ (0.00011684 : ℝ) := by
    have := mul_self_le_mul_self (by linarith : (0 : ℝ) ≤ sm) hsm_hi
    linarith [this]
  -- bounds on the longitude-difference half angle and its sine
  have hn1 : (0.0169750 : ℝ) ≤ (87.2744 - 85.3292) * Real.pi / 180 / 2 := by linarith
  have hn2 : (87.2744 - 85.3292) * Real.pi / 180 / 2 ≤ 0.0169751 := by linarith
  have hsn_lo : (0.0169737 : ℝ) ≤ sn := by
    have h := sin_lower_taylor hn1 (by norm_num) (by norm_num) (by linarith)
    rw [← hsn_def] at h
    linarith [h]
  have hsn_hi : sn ≤ (0.0169751 : ℝ) := by
    have h := sin_le_self (x := (87.2744 - 85.3292) * Real.pi / 180 / 2) (by linarith)
    rw [← hsn_def] at h
    linarith
  have hs2lo : (0.00028810 : ℝ) ≤ sn * sn := by
    have := mul_self_le_mul_self (by norm_num : (0 : ℝ) ≤ 0.0169737) hsn_lo
    linarith [this]
  have hs2hi : sn * sn ≤ (0.00028816 : ℝ) := by
    have := mul_self_le_mul_self (by linarith : (0 : ℝ) ≤ sn) hsn_hi
    linarith [this]
  -- bounds on the two latitude cosines
  have hx1a : (0.4835573 : ℝ) ≤ 27.7058 * Real.pi / 180 := by linarith
  have hx1b : 27.7058 * Real.pi / 180 ≤ (0.4835575 : ℝ) := by linarith
  have hc1hi : c1 ≤ (0.885934 : ℝ) := by
    have h := cos_upper_taylor hx1a (by norm_num) (by norm_num) (by linarith)
    rw [← hc1_def] at h
    linarith [h]
  have hc1lo : (0.880238 : ℝ) ≤ c1 := by
    have h := cos_lower_taylor hx1b (by linarith) (by norm_num) (by linarith)
    rw [← hc1_def] at h
    linarith [h]
  have hx2a : (0.4619396 : ℝ) ≤ 26.4672 * Real.pi / 180 := by linarith
  have hx2b : 26.4672 * Real.pi / 180 ≤ (0.4619399 : ℝ) := by linarith
  have hc2hi : c2 ≤ (0.895678 : ℝ) := by
    have h := cos_upper_taylor hx2a (by norm_num) (by norm_num) (by linarith)
    rw [← hc2_def] at h
    linarith [h]
  have hc2lo : (0.890934 : ℝ) ≤ c2 := by
    have h := cos_lower_taylor hx2b (by linarith) (by norm_num) (by linarith)
    rw [← hc2_def] at h
    linarith [h]
  -- the product of cosines
  have hPlo : (0.78423 : ℝ) ≤ c1 * c2 := by
    have := mul_le_mul hc1lo hc2lo (by norm_num) (by linarith)
    linarith [this]
  have hPhi : c1 * c2 ≤ (0.79352 : ℝ) := by
    have := mul_le_mul hc1hi hc2hi (by linarith) (by norm_num)
    linarith [this]
  -- the second haversine term
  have ht2lo : (0.00022593 : ℝ) ≤ c1 * c2 * sn * sn := by
    have := mul_le_mul hPlo hs2lo (by norm_num) (by linarith)
    linarith [this]
  have ht2hi : c1 * c2 * sn * sn ≤ (0.00022867 : ℝ) := by
    have := mul_le_mul hPhi hs2hi (by positivity) (by norm_num)
    linarith [this]
  -- the haversine parameter a
  have haLo : (0.00034275 : ℝ) ≤ sm * sm + c1 * c2 * sn * sn := by linarith
  have haHi : sm * sm + c1 * c2 * sn * sn ≤ (0.00034551 : ℝ) := by linarith
  have ha0 : (0 : ℝ) ≤ sm * sm + c1 * c2 * sn * sn := by linarith
  have ha1 : sm * sm + c1 * c2 * sn * sn ≤ 1 := by linarith
  rw [atan2_sqrt_eq_arcsin ha0 ha1]
  -- square root bounds
  have hsqlo : (0.018513 : ℝ) ≤ Real.sqrt (sm * sm + c1 * c2 * sn * sn) := by
    have h := Real.sqrt_le_sqrt (show (0.018513 : ℝ) ^ 2 ≤ sm * sm + c1 * c2 * sn * sn by
      linarith)
    rwa [Real.sqrt_sq (by norm_num)] at h
  have hsqhi : Real.sqrt (sm * sm + c1 * c2 * sn * sn) ≤ (0.018588 : ℝ) := by
    have h := Real.sqrt_le_sqrt (show sm * sm + c1 * c2 * sn * sn ≤ (0.018588 : ℝ) ^ 2 by
      linarith)
    rwa [Real.sqrt_sq (by norm_num)] at h
  -- arcsine bounds
  have harclo : (0.018513 : ℝ) ≤ Real.arcsin (Real.sqrt (sm * sm + c1 * c2 * sn * sn)) := by
    have h1 := le_arcsin_self (c := (0.018513 : ℝ)) (by norm_num) (by norm_num)
    have h2 := Real.monotone_arcsin hsqlo
    linarith
  have harchi : Real.arcsin (Real.sqrt (sm * sm + c1 * c2 * sn * sn)) ≤ (0.018591 : ℝ) := by
    have h1 := Real.monotone_arcsin hsqhi
    have h2 : Real.arcsin (0.018588 : ℝ) ≤ 0.018591 := by
      have hs := Real.sin_gt_sub_cube (show (0 : ℝ) < 0.018591 by norm_num)
        (by norm_num : (0.018591 : ℝ) ≤ 1)
      have hcu : (0.018588 : ℝ) ≤ Real.sin 0.018591 := by linarith [hs]
      exact arcsin_le_of_sin_ge hcu (by linarith) (by linarith)
    linarith
  constructor
  · linarith [harclo]
  · linarith [harchi]

/-- C8 counterexample: the Kathmandu-Biratnagar Haversine distance does NOT
lie in `[278, 288]` — it is below 237 km, so the spec's "≈ 283 km" reference
value is wrong (the actual great-circle distance is about 236.5 km). -/
theorem claim8_not_283 :
    ¬(278 ≤ calculateDistance 27.7058 85.3292 26.4672 87.2744 ∧
      calculateDistance 27.7058 85.3292 26.4672 87.2744 ≤ 288) := by
  intro h
  have := distance_ktm_brt_bounds.2
  linarith [h.1]

/-- C8 (amended): `calculateDistance` applied to Kathmandu (27.7058, 85.3292)
and Biratnagar (26.4672, 87.2744) yields a value within 5 km of 237 km,
i.e. in the interval `[232, 242]`. -/
theorem claim8_distance_near_237 :
    232 ≤ calculateDistance 27.7058 85.3292 26.4672 87.2744 ∧
    calculateDistance 27.7058 85.3292 26.4672 87.2744 ≤ 242 := by
  obtain ⟨h1, h2⟩ := distance_ktm_brt_bounds
  exact ⟨by linarith, by linarith⟩
